import Mathlib

/-!
Shallow embedding of `src/metrics-app/app.py`, a toy Prometheus metrics
generator: three registered metrics (two counters, one gauge), an updater
loop `generate_metrics` that increments both counters and overwrites the
gauge with a uniform random draw each iteration, and an HTTP exposition
endpoint started by the library call `start_http_server(8080)`.
-/

namespace MetricsApp

/-- The metric registry: the current values of the three metrics declared
at module level in `app.py` (`REQUEST_COUNT`, `RAM_TEST_METRIC_COUNT`,
`TEMPERATURE`). Counters hold non-negative integers; the gauge holds a
real number, embedded here as a rational. -/
structure MetricsState where
  request_count : ℕ
  ram_test_metric_count : ℕ
  room_temperature : ℚ
  deriving Repr, DecidableEq

/-- The registry at process start: Prometheus counters and gauges are
created with value 0. -/
def initState : MetricsState := ⟨0, 0, 0⟩

/-- CPython's `random.uniform(a, b)` computes `a + (b - a) * random()`,
where `random()` draws from `[0, 1)`; `u` is that draw. -/
def uniform (a b u : ℚ) : ℚ := a + (b - a) * u

/-- The sleep interval of the updater loop, in seconds (`time.sleep(2)`). -/
def updateInterval : ℕ := 2

/-- One iteration of the `while True` body of `generate_metrics`:
`REQUEST_COUNT.inc()`, `RAM_TEST_METRIC_COUNT.inc()`,
`TEMPERATURE.set(random.uniform(20, 35))`; the trailing `time.sleep(2)`
does not touch the registry. `u` is the random draw of this iteration. -/
def tick (s : MetricsState) (u : ℚ) : MetricsState :=
  { request_count := s.request_count + 1
    ram_test_metric_count := s.ram_test_metric_count + 1
    room_temperature := uniform 20 35 u }

/-- The loop guard of `generate_metrics` is the literal `True`: it does
not inspect the state. -/
def loopGuard (_ : MetricsState) : Bool := true

/-- The registry after `n` completed iterations of the updater loop,
starting from the initial registry, where `us k` is the random draw of
iteration `k`. -/
def run (us : ℕ → ℚ) : ℕ → MetricsState
  | 0 => initState
  | n + 1 => tick (run us n) (us n)

/-- One line of the text exposition payload: a help comment, a type
comment, or a data line `metric_name value`. -/
inductive ExpoLine where
  | help (name desc : String)
  | typ (name kind : String)
  | data (name : String) (value : ℚ)
  deriving Repr, DecidableEq

/-- Whether a line is a metric data line (as opposed to a comment line). -/
def ExpoLine.isData : ExpoLine → Bool
  | .data _ _ => true
  | _ => false

/-- The data lines of an exposition payload, in order. -/
def dataLines (ls : List ExpoLine) : List ExpoLine := ls.filter ExpoLine.isData

/-- Modelled from the spec: the serialization performed by the HTTP
exposition endpoint that `start_http_server` installs (library code, not
part of this repository). Per the spec's wire format, each metric yields
a help comment line, a type comment line, and one data line
`metric_name value`, with the current registry values, in registration
order. Names and help texts are the ones registered in `app.py`. -/
def expose (s : MetricsState) : List ExpoLine :=
  [ .help "http_requests_total" "Total HTTP requests served"
  , .typ "http_requests_total" "counter"
  , .data "http_requests_total" (s.request_count : ℚ)
  , .help "room_temperature_celsius" "Simulated room temperature in Celsius"
  , .typ "room_temperature_celsius" "gauge"
  , .data "room_temperature_celsius" s.room_temperature
  , .help "ram_test_metric_count" "Ram\x27s sample custom metric"
  , .typ "ram_test_metric_count" "counter"
  , .data "ram_test_metric_count" (s.ram_test_metric_count : ℚ) ]

/-- Modelled from the spec: serving one exposition request reads the
current registry snapshot and serializes it; the endpoint is stateless
per-request and does not mutate the registry. Returns the response
payload together with the registry state after the request. -/
def serveRequest (s : MetricsState) : List ExpoLine × MetricsState :=
  (expose s, s)

/-- An observable startup-time action of the `__main__` block. -/
inductive StartupEvent where
  | startServer (port : ℕ)
  | printLine (line : String)
  | runUpdaterLoop
  deriving Repr, DecidableEq

/-- Whether a startup event is a write to standard output. -/
def StartupEvent.isPrint : StartupEvent → Bool
  | .printLine _ => true
  | _ => false

/-- The sequence of startup actions of the `__main__` block of `app.py`:
`start_http_server(8080)`, then `print("Serving metrics on :8080/metrics")`,
then `generate_metrics()`. -/
def mainStartup : List StartupEvent :=
  [ .startServer 8080
  , .printLine "Serving metrics on :8080/metrics"
  , .runUpdaterLoop ]

lemma run_request_count (us : ℕ → ℚ) (n : ℕ) :
    (run us n).request_count = n := by
  induction n with
  | zero => rfl
  | succ n ih => simp [run, tick, ih]

lemma run_ram_test_metric_count (us : ℕ → ℚ) (n : ℕ) :
    (run us n).ram_test_metric_count = n := by
  induction n with
  | zero => rfl
  | succ n ih => simp [run, tick, ih]

/-- C1: after every number `n` of completed updater-loop iterations, both
`request_count` and `ram_test_metric_count` equal `n`: both start at 0
and each iteration increments each by exactly 1. -/
theorem counters_track_tick_count (us : ℕ → ℚ) (n : ℕ) :
    (run us n).request_count = n ∧ (run us n).ram_test_metric_count = n :=
  ⟨run_request_count us n, run_ram_test_metric_count us n⟩

/-- C2: the gauge value written by a tick whose random draw `u` lies in
`[0, 1)` satisfies `20 ≤ v < 35`. -/
theorem gauge_value_in_range (s : MetricsState) (u : ℚ)
    (h0 : 0 ≤ u) (h1 : u < 1) :
    20 ≤ (tick s u).room_temperature ∧ (tick s u).room_temperature < 35 := by
  simp only [tick, uniform]
  constructor
  · nlinarith
  · nlinarith

/-- Witness for C2 at the concrete draw `u = 1/2`. -/
theorem gauge_value_in_range_witness :
    (0 : ℚ) ≤ 1 / 2 ∧ (1 : ℚ) / 2 < 1 ∧
      (20 ≤ (tick initState (1 / 2)).room_temperature ∧
        (tick initState (1 / 2)).room_temperature < 35) :=
  ⟨by norm_num, by norm_num,
    gauge_value_in_range initState (1 / 2) (by norm_num) (by norm_num)⟩

/-- C3: the parsed exposition output has exactly three metric data lines,
whose values are the registry's two counter values and gauge value at the
moment of serialization. -/
theorem exposition_three_data_lines (s : MetricsState) :
    (dataLines (expose s)).length = 3 ∧
    dataLines (expose s) =
      [ .data "http_requests_total" (s.request_count : ℚ)
      , .data "room_temperature_celsius" s.room_temperature
      , .data "ram_test_metric_count" (s.ram_test_metric_count : ℚ) ] := by
  constructor <;> rfl

/-- C4: no operation of the program lowers either counter: a tick raises
both, and serving an exposition request leaves the registry unchanged. -/
theorem counters_non_decreasing (s : MetricsState) (u : ℚ) :
    s.request_count ≤ (tick s u).request_count ∧
    s.ram_test_metric_count ≤ (tick s u).ram_test_metric_count ∧
    (serveRequest s).2 = s := by
  refine ⟨?_, ?_, rfl⟩ <;> simp [tick]

/-- C5: the updater loop never terminates on its own: its guard is
identically true, so after any number `n` of completed iterations it
performs another iteration. -/
theorem loop_never_terminates (us : ℕ → ℚ) (n : ℕ) :
    loopGuard (run us n) = true ∧
    run us (n + 1) = tick (run us n) (us n) :=
  ⟨rfl, rfl⟩

/-- C6: two exposition requests with no intervening tick return identical
payloads: serving a request does not change the registry, so the second
response equals the first. -/
theorem exposition_idempotent (s : MetricsState) :
    (serveRequest ((serveRequest s).2)).1 = (serveRequest s).1 ∧
    (serveRequest s).2 = s :=
  ⟨rfl, rfl⟩

/-- C7: before the first tick, the exposition data lines report
`request_count = 0`, `ram_test_metric_count = 0`, and the gauge at its
default value 0. -/
theorem initial_exposition_all_zero :
    dataLines (expose initState) =
      [ .data "http_requests_total" 0
      , .data "room_temperature_celsius" 0
      , .data "ram_test_metric_count" 0 ] := by
  rfl

/-- C8: startup first starts the HTTP server on fixed port 8080, then
prints exactly one line to standard output, and only then enters the
updater loop; these are the only startup actions. -/
theorem startup_sequence :
    mainStartup.length = 3 ∧
    mainStartup.get? 0 = some (.startServer 8080) ∧
    mainStartup.get? 1 = some (.printLine "Serving metrics on :8080/metrics") ∧
    mainStartup.get? 2 = some .runUpdaterLoop ∧
    (mainStartup.filter StartupEvent.isPrint).length = 1 := by
  refine ⟨rfl, rfl, rfl, rfl, rfl⟩

/-- C9: after every completed iteration of the updater loop the two
counters are equal to each other. -/
theorem counters_stay_equal (us : ℕ → ℚ) (n : ℕ) :
    (run us n).request_count = (run us n).ram_test_metric_count := by
  rw [run_request_count, run_ram_test_metric_count]

/-- C10: the gauge value written by a tick depends only on that tick's
random draw, not on the prior registry state. -/
theorem gauge_ignores_prior_state (s₁ s₂ : MetricsState) (u : ℚ) :
    (tick s₁ u).room_temperature = (tick s₂ u).room_temperature :=
  rfl

end MetricsApp
